import Mathlib

/-!
Shallow embedding of src/build_quality_check.py (class CheckBuildStatus)
from RollbarCustomerEng/build-quality-check.

Modelling conventions:
* Python exceptions are modelled by PyErr. CheckBuildException is the only
  exception class the module defines; every other exception raised along the
  checked paths (json.JSONDecodeError, KeyError, TypeError, AttributeError,
  connection errors, ...) is collapsed into PyErr.other carrying the
  exception's name, because determine_build_quality distinguishes exceptions
  only by an isinstance test on CheckBuildException.
* The HTTP layer (requests.get) is an oracle: a TransportResult per attempt,
  either a Response (status_code, text) or a raised exception.
* json.loads is an oracle (String to Option JValue); none models a
  json.JSONDecodeError. JSON numbers are modelled as integers (the Versions
  API returns integer item counts); JSON booleans behave as 0/1 under
  addition, as in Python.
* time.sleep calls inside the check loop are counted, not performed; the
  second component of the loop results is the number of inter-check sleeps
  (the fixed 3-second retry sleeps inside get_version_json_data are not
  counted, but the number of HTTP attempts is).
-/

namespace BuildQualityCheck

/-- Python exception as observed by the except clauses of
determine_build_quality: either a CheckBuildException with its message, or
any other exception identified by its class name. -/
inductive PyErr where
  | checkBuild (msg : String)
  | other (name : String)
  deriving DecidableEq, Repr

/-- JSON value, as produced by json.loads. Numbers are the integer counts
returned by the Versions API; objects are association lists. -/
inductive JValue where
  | null
  | bool (b : Bool)
  | num (n : Int)
  | str (s : String)
  | arr (elems : List JValue)
  | obj (fields : List (String × JValue))

/-- Python numeric coercion used by the + in get_error_and_higher_count:
ints are themselves, bools are 0/1, anything else does not add to an int. -/
def pyNumVal : JValue → Option Int
  | .num n => some n
  | .bool b => some (if b then 1 else 0)
  | _ => none

/-- Embeds the Python subscript json_data[key]: a lookup in a JSON object,
raising KeyError when the key is absent and TypeError when the value is not
an object (as str/list/int subscripting with a string key does). -/
def jGet (j : JValue) (key : String) : Except PyErr JValue :=
  match j with
  | .obj fields =>
    match fields.lookup key with
    | some v => .ok v
    | none => .error (.other "KeyError")
  | _ => .error (.other "TypeError")

/-- HTTP response, the parts of requests.Response the module reads. -/
structure Response where
  status_code : Int
  text : String
  deriving DecidableEq, Repr

/-- Outcome of one requests.get call: either a response object or a raised
exception (e.g. a connection error), identified by name. -/
inductive TransportResult where
  | resp (r : Response)
  | exn (name : String)

/-- Embeds CheckBuildStatus.make_versions_api_call. When requests.get
raises, the except block catches and logs it, leaving resp = None; the
debug statement print(resp.text) that follows then raises AttributeError,
which propagates to the caller. When requests.get returns, the response is
printed and returned. The function can therefore never return None. -/
def make_versions_api_call : TransportResult → Except PyErr (Option Response)
  | .resp r => .ok (some r)
  | .exn _ => .error (.other "AttributeError")

/-- Truth of the negation of the retry condition in get_version_json_data:
the loop breaks exactly when resp is a response with status code 200
(`not resp or resp.status_code != 200` is false). -/
def is200 : Option Response → Bool
  | some r => r.status_code == 200
  | none => false

/-- Retry loop of CheckBuildStatus.get_version_json_data
(`for i in range(0, REQUEST_RETRIES)`). The argument i is the index of the
next attempt, fuel the number of iterations left; the result is the last
value of resp (or the exception that escaped) together with the number of
attempts made. On a non-200 or missing response the code sleeps 3 seconds
and retries; on the last iteration the loop simply ends, keeping resp. -/
def retryLoop (attempt : Nat → Except PyErr (Option Response)) :
    Nat → Nat → Except PyErr (Option Response) × Nat
  | i, 0 => (.ok none, i)
  | i, 1 =>
    (match attempt i with
     | .error e => (.error e, i + 1)
     | .ok r => (.ok r, i + 1))
  | i, fuel + 2 =>
    match attempt i with
    | .error e => (.error e, i + 1)
    | .ok r =>
      if is200 r then (.ok r, i + 1) else retryLoop attempt (i + 1) (fuel + 1)

/-- Embeds CheckBuildStatus.get_version_json_data: run the retry loop
(REQUEST_RETRIES = 3), then inspect the final resp: None raises
CheckBuildException about a missing response, a non-200 status raises
CheckBuildException naming the status code, and a 200 response yields its
body. The second component is the number of HTTP attempts made. -/
def get_version_json_data (attempt : Nat → Except PyErr (Option Response)) :
    Except PyErr String × Nat :=
  match retryLoop attempt 0 3 with
  | (.error e, n) => (.error e, n)
  | (.ok none, n) => (.error (.checkBuild "Invalid web response resp = None"), n)
  | (.ok (some resp), n) =>
    if resp.status_code == 200 then (.ok resp.text, n)
    else
      (.error (.checkBuild ("Invalid web response status code: " ++
        toString resp.status_code)), n)

/-- Embeds CheckBuildStatus.get_error_and_higher_count: read the error and
critical fields of one item_stats category and add them. A missing key
raises KeyError; values that do not add like numbers raise TypeError (in
Python the TypeError may only surface at the later threshold comparison,
but the observable outcome of the check is the same generic exception). -/
def get_error_and_higher_count (item_stats : JValue) : Except PyErr Int :=
  match jGet item_stats "error" with
  | .error e => .error e
  | .ok ev =>
    match jGet item_stats "critical" with
    | .error e => .error e
    | .ok cv =>
      match pyNumVal ev, pyNumVal cv with
      | some a, some b => .ok (a + b)
      | _, _ => .error (.other "TypeError")

/-- Item totals computed from one API response: for each of the four
categories, the sum of its error and critical counts. -/
structure ItemTotals where
  new : Int
  reactivated : Int
  repeated : Int
  resolved : Int
  deriving DecidableEq, Repr

/-- Embeds CheckBuildStatus.calculate_item_totals: json.loads the body
(none models JSONDecodeError), walk result -> item_stats, and total the
four categories in source order. -/
def calculate_item_totals (loads : String → Option JValue)
    (web_resp_text : String) : Except PyErr ItemTotals :=
  match loads web_resp_text with
  | none => .error (.other "JSONDecodeError")
  | some json_data =>
    match jGet json_data "result" with
    | .error e => .error e
    | .ok result =>
      match jGet result "item_stats" with
      | .error e => .error e
      | .ok item_stats =>
        match jGet item_stats "new" with
        | .error e => .error e
        | .ok jn =>
          match get_error_and_higher_count jn with
          | .error e => .error e
          | .ok n =>
            match jGet item_stats "reactivated" with
            | .error e => .error e
            | .ok jr =>
              match get_error_and_higher_count jr with
              | .error e => .error e
              | .ok r =>
                match jGet item_stats "repeated" with
                | .error e => .error e
                | .ok jp =>
                  match get_error_and_higher_count jp with
                  | .error e => .error e
                  | .ok p =>
                    match jGet item_stats "resolved" with
                    | .error e => .error e
                    | .ok js =>
                      match get_error_and_higher_count js with
                      | .error e => .error e
                      | .ok q => .ok ⟨n, r, p, q⟩

/-- Embeds CheckBuildStatus.calculate_status: start from SUCCESS (0), and
with total = new + reactivated add NEW_ITEMS (1) when total exceeds the
threshold and new is positive, then add REACTIVATED_ITEMS (2) when total
exceeds the threshold and reactivated is positive. -/
def calculate_status (item_totals : ItemTotals) (item_threshold : Int) : Int :=
  let status : Int := 0
  let total := item_totals.new + item_totals.reactivated
  let status := if total > item_threshold ∧ item_totals.new > 0 then status + 1 else status
  let status := if total > item_threshold ∧ item_totals.reactivated > 0 then status + 2 else status
  status

/-- Embeds CheckBuildStatus.get_version_status for one check iteration:
fetch the body (get_version_json_data over make_versions_api_call applied
to the transport oracle), parse it into totals, and evaluate the status;
any exception along the way propagates. -/
def get_version_status (transport : Nat → TransportResult)
    (loads : String → Option JValue) (item_threshold : Int) : Except PyErr Int :=
  match (get_version_json_data (fun i => make_versions_api_call (transport i))).1 with
  | .error e => .error e
  | .ok text =>
    match calculate_item_totals loads text with
    | .error e => .error e
    | .ok totals => .ok (calculate_status totals item_threshold)

/-- Check loop of CheckBuildStatus.determine_build_quality. The state is
(next index i, current value of the status variable, inter-check sleeps so
far); status starts at GENERAL_ERROR (100). Each iteration runs one check:
a CheckBuildException sets status to CHECK_BUILD_ERROR (101) and ends the
run; any other exception is only logged, ending the run with the status
variable unchanged; a SUCCESS (0) status sleeps check_seconds and
continues; a non-SUCCESS status breaks the loop and is returned. -/
def dbq_loop (check : Nat → Except PyErr Int) :
    Nat → Nat → Int → Nat → Int × Nat
  | 0, _, status, sleeps => (status, sleeps)
  | fuel + 1, i, status, sleeps =>
    match check i with
    | .error (.checkBuild _) => (101, sleeps)
    | .error (.other _) => (status, sleeps)
    | .ok s => if s = 0 then dbq_loop check fuel (i + 1) s (sleeps + 1) else (s, sleeps)

/-- Embeds CheckBuildStatus.determine_build_quality over an abstract
per-iteration check outcome (the behaviour of get_version_status on
iteration i). Returns the final status and the number of inter-check
sleeps performed. -/
def determine_build_quality (check : Nat → Except PyErr Int)
    (num_checks : Nat) : Int × Nat :=
  dbq_loop check num_checks 0 100 0

/-- Fully composed determine_build_quality: the transport oracle gives the
requests.get outcome for attempt a of check iteration c, loads is the
json.loads oracle. -/
def determine_build_quality_full (transport : Nat → Nat → TransportResult)
    (loads : String → Option JValue) (item_threshold : Int)
    (num_checks : Nat) : Int × Nat :=
  determine_build_quality
    (fun c => get_version_status (transport c) loads item_threshold) num_checks

/-- Embeds Python str.isalnum as used by validate_input: true exactly for a
nonempty string all of whose characters are alphanumeric. -/
def py_isalnum (s : String) : Bool :=
  !s.toList.isEmpty && s.toList.all Char.isAlphanum

/-- Embeds Python str.replace(c, "") for a one-character pattern: removal
of every occurrence of that character. -/
def py_replace_char (s : String) (c : Char) : String :=
  String.mk (s.toList.filter (fun a => a != c))

/-- Stripping performed on environment by validate_input, in source order:
replace('.', ''), then replace('-', ''), then replace('_', ''). -/
def strip_env (s : String) : String :=
  py_replace_char (py_replace_char (py_replace_char s '.') '-') '_'

/-- Access-token clause of CheckBuildStatus.validate_input: no ValueError
exactly when the token is alphanumeric of length exactly 32. -/
def validate_access_token (access_token : String) : Bool :=
  py_isalnum access_token && decide (access_token.length = 32)

/-- Environment clause of CheckBuildStatus.validate_input: the variable is
reassigned to its stripped form before both the isalnum test and the
length test, so no ValueError exactly when the stripped string is
alphanumeric and the stripped string has length at most 200. -/
def validate_environment (environment : String) : Bool :=
  let environment := strip_env environment
  py_isalnum environment && decide (environment.length ≤ 200)

/-- Embeds CheckBuildStatus.validate_input: true when no clause raises
ValueError. The isinstance checks are always true in this typed embedding;
the remaining clauses are checked in source order. -/
def validate_input (access_token code_version environment : String)
    (item_threshold num_checks check_seconds : Int) : Bool :=
  validate_access_token access_token &&
  decide (code_version.length ≤ 200) &&
  validate_environment environment &&
  decide (0 ≤ item_threshold) &&
  decide (1 ≤ num_checks) &&
  decide (1 ≤ check_seconds)

/-- Attempt stream in which every requests.get call returns a response
object or None without raising; used to state properties of the retry
logic of get_version_json_data in isolation. -/
def pureAttempts (tr : Nat → Option Response) :
    Nat → Except PyErr (Option Response) :=
  fun i => .ok (tr i)

/-- Versions API response body holding the four item_stats categories. -/
def mkVersionsResponse (sn sr sp ss : JValue) : JValue :=
  .obj [("result", .obj [("item_stats",
    .obj [("new", sn), ("reactivated", sr), ("repeated", sp), ("resolved", ss)])])]

/-- Parsed response of the worked example: item_stats.new has error 2,
critical 1 and warning 99; the other categories are clean. -/
def exampleResponse : JValue :=
  mkVersionsResponse
    (.obj [("error", .num 2), ("critical", .num 1), ("warning", .num 99)])
    (.obj [("error", .num 0), ("critical", .num 0)])
    (.obj [("error", .num 0), ("critical", .num 0)])
    (.obj [("error", .num 0), ("critical", .num 0)])

/-- Environment string of 201 characters (195 letters and 6 dots) whose
stripped form has only 195 characters. -/
def longEnv : String := String.mk (List.replicate 195 'a' ++ List.replicate 6 '.')

/-- Helper: jGet either succeeds or fails with a generic (non-CheckBuild)
exception. -/
theorem jGet_shape (j : JValue) (k : String) :
    (∃ v, jGet j k = .ok v) ∨ ∃ s, jGet j k = .error (.other s) := by
  cases j with
  | obj fields =>
    cases h : fields.lookup k with
    | none => exact Or.inr ⟨"KeyError", by simp [jGet, h]⟩
    | some v => exact Or.inl ⟨v, by simp [jGet, h]⟩
  | null => exact Or.inr ⟨"TypeError", rfl⟩
  | bool b => exact Or.inr ⟨"TypeError", rfl⟩
  | num n => exact Or.inr ⟨"TypeError", rfl⟩
  | str s => exact Or.inr ⟨"TypeError", rfl⟩
  | arr elems => exact Or.inr ⟨"TypeError", rfl⟩

/-- Helper: get_error_and_higher_count either succeeds or fails with a
generic (non-CheckBuild) exception. -/
theorem get_error_and_higher_count_shape (j : JValue) :
    (∃ v, get_error_and_higher_count j = .ok v) ∨
    ∃ s, get_error_and_higher_count j = .error (.other s) := by
  rcases jGet_shape j "error" with ⟨ev, he⟩ | ⟨s, he⟩
  · rcases jGet_shape j "critical" with ⟨cv, hc⟩ | ⟨s, hc⟩
    · cases ha : pyNumVal ev with
      | none =>
        exact Or.inr ⟨"TypeError", by simp [get_error_and_higher_count, he, hc, ha]⟩
      | some a =>
        cases hb : pyNumVal cv with
        | none =>
          exact Or.inr ⟨"TypeError", by simp [get_error_and_higher_count, he, hc, ha, hb]⟩
        | some b =>
          exact Or.inl ⟨a + b, by simp [get_error_and_higher_count, he, hc, ha, hb]⟩
    · exact Or.inr ⟨s, by simp [get_error_and_higher_count, he, hc]⟩
  · exact Or.inr ⟨s, by simp [get_error_and_higher_count, he]⟩

/-- Helper: calculate_item_totals either succeeds or fails with a generic
(non-CheckBuild) exception: neither json.loads, the subscripts, nor the
count additions can raise CheckBuildException. -/
theorem calculate_item_totals_shape (loads : String → Option JValue) (t : String) :
    (∃ v, calculate_item_totals loads t = .ok v) ∨
    ∃ s, calculate_item_totals loads t = .error (.other s) := by
  cases hl : loads t with
  | none => exact Or.inr ⟨"JSONDecodeError", by simp [calculate_item_totals, hl]⟩
  | some j =>
    rcases jGet_shape j "result" with ⟨res, h1⟩ | ⟨s, h1⟩
    · rcases jGet_shape res "item_stats" with ⟨its, h2⟩ | ⟨s, h2⟩
      · rcases jGet_shape its "new" with ⟨jn, h3⟩ | ⟨s, h3⟩
        · rcases get_error_and_higher_count_shape jn with ⟨n, h4⟩ | ⟨s, h4⟩
          · rcases jGet_shape its "reactivated" with ⟨jr, h5⟩ | ⟨s, h5⟩
            · rcases get_error_and_higher_count_shape jr with ⟨r, h6⟩ | ⟨s, h6⟩
              · rcases jGet_shape its "repeated" with ⟨jp, h7⟩ | ⟨s, h7⟩
                · rcases get_error_and_higher_count_shape jp with ⟨p, h8⟩ | ⟨s, h8⟩
                  · rcases jGet_shape its "resolved" with ⟨js, h9⟩ | ⟨s, h9⟩
                    · rcases get_error_and_higher_count_shape js with ⟨q, h10⟩ | ⟨s, h10⟩
                      · exact Or.inl ⟨⟨n, r, p, q⟩, by
                          simp [calculate_item_totals, hl, h1, h2, h3, h4, h5, h6, h7, h8, h9, h10]⟩
                      · exact Or.inr ⟨s, by
                          simp [calculate_item_totals, hl, h1, h2, h3, h4, h5, h6, h7, h8, h9, h10]⟩
                    · exact Or.inr ⟨s, by
                        simp [calculate_item_totals, hl, h1, h2, h3, h4, h5, h6, h7, h8, h9]⟩
                  · exact Or.inr ⟨s, by
                      simp [calculate_item_totals, hl, h1, h2, h3, h4, h5, h6, h7, h8]⟩
                · exact Or.inr ⟨s, by
                    simp [calculate_item_totals, hl, h1, h2, h3, h4, h5, h6, h7]⟩
              · exact Or.inr ⟨s, by simp [calculate_item_totals, hl, h1, h2, h3, h4, h5, h6]⟩
            · exact Or.inr ⟨s, by simp [calculate_item_totals, hl, h1, h2, h3, h4, h5]⟩
          · exact Or.inr ⟨s, by simp [calculate_item_totals, hl, h1, h2, h3, h4]⟩
        · exact Or.inr ⟨s, by simp [calculate_item_totals, hl, h1, h2, h3]⟩
      · exact Or.inr ⟨s, by simp [calculate_item_totals, hl, h1, h2]⟩
    · exact Or.inr ⟨s, by simp [calculate_item_totals, hl, h1]⟩

/-- Helper: an error coming out of calculate_item_totals is never a
CheckBuildException. -/
theorem calculate_item_totals_error_other {loads : String → Option JValue}
    {t : String} {e : PyErr} (h : calculate_item_totals loads t = .error e) :
    ∃ s, e = .other s := by
  rcases calculate_item_totals_shape loads t with ⟨v, hv⟩ | ⟨s, hs⟩
  · rw [hv] at h; exact Except.noConfusion h
  · rw [hs] at h
    injection h with h'
    exact ⟨s, h'.symm⟩

/-- Helper: calculate_status only ever produces 0, 1, 2 or 3. -/
theorem calculate_status_cases (t : ItemTotals) (th : Int) :
    calculate_status t th = 0 ∨ calculate_status t th = 1 ∨
    calculate_status t th = 2 ∨ calculate_status t th = 3 := by
  simp only [calculate_status]
  split_ifs <;> omega

/-- Helper: a status returned (rather than raised) by get_version_status is
one of the four item-flag codes. -/
theorem get_version_status_ok_cases {transport : Nat → TransportResult}
    {loads : String → Option JValue} {th s : Int}
    (h : get_version_status transport loads th = .ok s) :
    s = 0 ∨ s = 1 ∨ s = 2 ∨ s = 3 := by
  unfold get_version_status at h
  cases hg : (get_version_json_data fun i => make_versions_api_call (transport i)).1 with
  | error e => rw [hg] at h; exact Except.noConfusion h
  | ok text =>
    rw [hg] at h
    cases hc : calculate_item_totals loads text with
    | error e => simp [hc] at h
    | ok totals =>
      simp [hc] at h
      rw [← h]
      exact calculate_status_cases totals th

/-- Helper: the check loop, started with a status of 0 or 100, ends with
one of the six status codes as long as every successful check yields an
item-flag code. -/
theorem dbq_loop_codes (check : Nat → Except PyErr Int)
    (hck : ∀ j s, check j = .ok s → s = 0 ∨ s = 1 ∨ s = 2 ∨ s = 3) :
    ∀ (fuel i : Nat) (status : Int) (sleeps : Nat),
      status = 0 ∨ status = 100 →
      (dbq_loop check fuel i status sleeps).1 = 0 ∨
      (dbq_loop check fuel i status sleeps).1 = 1 ∨
      (dbq_loop check fuel i status sleeps).1 = 2 ∨
      (dbq_loop check fuel i status sleeps).1 = 3 ∨
      (dbq_loop check fuel i status sleeps).1 = 100 ∨
      (dbq_loop check fuel i status sleeps).1 = 101 := by
  intro fuel
  induction fuel with
  | zero =>
    intro i status sleeps hst
    simp only [dbq_loop]
    omega
  | succ fuel ih =>
    intro i status sleeps hst
    simp only [dbq_loop]
    cases hc : check i with
    | error e =>
      cases e with
      | checkBuild m => simp
      | other n => simp only; omega
    | ok s =>
      by_cases hs : s = 0
      · simp only [hs, if_pos rfl]
        exact ih (i + 1) 0 (sleeps + 1) (Or.inl rfl)
      · simp only [if_neg hs]
        rcases hck i s hc with h | h | h | h <;> simp [h]

/-- Helper: a run of the check loop in which every check up to the fuel
bound is clean returns SUCCESS and sleeps once per iteration, the final
one included. -/
theorem dbq_loop_all_success (check : Nat → Except PyErr Int) :
    ∀ (fuel i : Nat) (status : Int) (sleeps : Nat),
      1 ≤ fuel → (∀ k, k < fuel → check (i + k) = .ok 0) →
      dbq_loop check fuel i status sleeps = (0, sleeps + fuel) := by
  intro fuel
  induction fuel with
  | zero => intro i status sleeps h; exact absurd h (by omega)
  | succ fuel ih =>
    intro i status sleeps _ hall
    have h0 : check i = .ok 0 := by simpa using hall 0 (by omega)
    simp only [dbq_loop, h0, if_pos rfl]
    cases fuel with
    | zero => simp [dbq_loop]
    | succ f =>
      rw [ih (i + 1) 0 (sleeps + 1) (by omega)
        (fun k hk => by
          have := hall (k + 1) (by omega)
          rwa [show i + (k + 1) = i + 1 + k by omega] at this)]
      rw [show sleeps + (f + 1 + 1) = sleeps + 1 + (f + 1) by omega]
      simp

/-- Helper: the check loop stops at the first check returning a non-zero
status, having slept once per preceding clean check, and returns that
status. -/
theorem dbq_loop_first_stop (check : Nat → Except PyErr Int) :
    ∀ (j fuel i : Nat) (status s : Int) (sleeps : Nat),
      j < fuel → (∀ k, k < j → check (i + k) = .ok 0) →
      check (i + j) = .ok s → s ≠ 0 →
      dbq_loop check fuel i status sleeps = (s, sleeps + j) := by
  intro j
  induction j with
  | zero =>
    intro fuel i status s sleeps hj _ hcj hs
    obtain ⟨f, rfl⟩ : ∃ f, fuel = f + 1 := ⟨fuel - 1, by omega⟩
    have hcj' : check i = .ok s := by simpa using hcj
    simp [dbq_loop, hcj', hs]
  | succ j ih =>
    intro fuel i status s sleeps hj hall hcj hs
    obtain ⟨f, rfl⟩ : ∃ f, fuel = f + 1 := ⟨fuel - 1, by omega⟩
    have h0 : check i = .ok 0 := by simpa using hall 0 (by omega)
    simp only [dbq_loop, h0, if_pos rfl]
    rw [ih f (i + 1) 0 s (sleeps + 1) (by omega)
      (fun k hk => by
        have := hall (k + 1) (by omega)
        rwa [show i + (k + 1) = i + 1 + k by omega] at this)
      (by rwa [show i + 1 + j = i + (j + 1) by omega]) hs]
    rw [show sleeps + (j + 1) = sleeps + 1 + j by omega]
    simp

/-- Claim C1: for every ItemTotals and every non-negative item_threshold,
calculate_status returns SUCCESS (0) plus NEW_ITEMS (1) exactly when
new + reactivated > item_threshold and new > 0, plus REACTIVATED_ITEMS (2)
exactly when new + reactivated > item_threshold and reactivated > 0; with
threshold 0: new=0, reactivated=5 gives 2; new=5, reactivated=0 gives 1;
both nonzero with combined > threshold gives 3; and new=1, reactivated=0
with threshold 5 gives 0. -/
theorem claim_C1 :
    (∀ (t : ItemTotals) (th : Int), 0 ≤ th →
       calculate_status t th =
         (if t.new + t.reactivated > th ∧ t.new > 0 then 1 else 0) +
         (if t.new + t.reactivated > th ∧ t.reactivated > 0 then 2 else 0)) ∧
    calculate_status ⟨0, 5, 0, 0⟩ 0 = 2 ∧
    calculate_status ⟨5, 0, 0, 0⟩ 0 = 1 ∧
    (∀ (t : ItemTotals) (th : Int), 0 ≤ th → 0 < t.new → 0 < t.reactivated →
       t.new + t.reactivated > th → calculate_status t th = 3) ∧
    calculate_status ⟨1, 0, 0, 0⟩ 5 = 0 := by
  refine ⟨?_, by decide, by decide, ?_, by decide⟩
  · intro t th _
    simp only [calculate_status]
    split_ifs <;> omega
  · intro t th _ h1 h2 h3
    simp only [calculate_status]
    split_ifs with hA hB
    all_goals omega

/-- Witness for claim C1 at totals new=2, reactivated=1, threshold 0. -/
theorem claim_C1_witness : calculate_status ⟨2, 1, 0, 0⟩ 0 = 3 :=
  claim_C1.2.2.2.1 ⟨2, 1, 0, 0⟩ 0 (by decide) (by decide) (by decide) (by decide)

/-- Counterexample to claim C2 as stated: with num_checks = 1 and a single
clean check, the claim says no sleep happens (a sleep only follows a
SUCCESS iteration with i < num_checks, never the final one), but the loop
body sleeps after every SUCCESS status, so exactly one sleep occurs. -/
theorem claim_C2_counterexample :
    determine_build_quality (fun _ => .ok 0) 1 = (0, 1) := rfl

/-- Claim C2 (amended): the loop stops immediately at the first
non-SUCCESS status and returns the last computed status, but it sleeps
check_interval_seconds after every iteration whose status is SUCCESS,
including the final one: a run of n clean checks sleeps n times, and a run
whose first non-clean check is number j+1 sleeps j times. -/
theorem claim_C2 :
    (∀ (check : Nat → Except PyErr Int) (nchecks : Nat),
       1 ≤ nchecks → (∀ i, i < nchecks → check i = .ok 0) →
       determine_build_quality check nchecks = (0, nchecks)) ∧
    (∀ (check : Nat → Except PyErr Int) (nchecks j : Nat) (s : Int),
       j < nchecks → (∀ i, i < j → check i = .ok 0) →
       check j = .ok s → s ≠ 0 →
       determine_build_quality check nchecks = (s, j)) := by
  constructor
  · intro check nchecks h1 hall
    unfold determine_build_quality
    rw [dbq_loop_all_success check nchecks 0 100 0 h1
      (fun k hk => by simpa using hall k hk)]
    norm_num
  · intro check nchecks j s hj hall hcj hs
    unfold determine_build_quality
    rw [dbq_loop_first_stop check j nchecks 0 100 s 0 hj
      (fun k hk => by simpa using hall k hk) (by simpa using hcj) hs]
    norm_num

/-- Witness for claim C2: two clean checks sleep twice; with the second
check returning REACTIVATED_ITEMS the loop stops there after one sleep. -/
theorem claim_C2_witness :
    determine_build_quality (fun _ => .ok 0) 2 = (0, 2) ∧
    determine_build_quality (fun i => if i = 0 then .ok 0 else .ok 2) 3 = (2, 1) :=
  ⟨claim_C2.1 (fun _ => .ok 0) 2 (by omega) (fun i _ => rfl),
   claim_C2.2 (fun i => if i = 0 then .ok 0 else .ok 2) 3 1 2 (by omega)
     (fun i hi => by
        have h0 : i = 0 := by omega
        rw [h0]
        rfl) rfl (by decide)⟩

/-- Counterexample to claim C3 as stated: a body that is not valid JSON
reaches the check as the 200 response text, the parse step raises a
generic exception (json.JSONDecodeError is not a CheckBuildException), and
determine_build_quality returns GENERAL_ERROR (100), not CHECK_ERROR
(101). -/
theorem claim_C3_counterexample :
    determine_build_quality_full (fun _ _ => .resp ⟨200, "not json"⟩)
      (fun _ => none) 0 1 = (100, 0) := rfl

/-- Claim C3 (amended): for every response body that is not valid JSON or
lacks the expected nested structure, the check that receives that body
raises an ordinary exception (never CheckBuildException), and
determine_build_quality catches it and returns GENERAL_ERROR (100) — not a
crash, but also not CHECK_ERROR (101) — when that check is the first. -/
theorem claim_C3 (loads : String → Option JValue) (body : String) (e : PyErr)
    (transport : Nat → Nat → TransportResult) (th : Int) (nchecks : Nat)
    (hn : 1 ≤ nchecks)
    (ht : transport 0 0 = .resp ⟨200, body⟩)
    (hp : calculate_item_totals loads body = .error e) :
    determine_build_quality_full transport loads th nchecks = (100, 0) := by
  obtain ⟨s, rfl⟩ := calculate_item_totals_error_other hp
  have hfetch : (get_version_json_data
      (fun i => make_versions_api_call (transport 0 i))).1 = .ok body := by
    simp [get_version_json_data, retryLoop, ht, make_versions_api_call, is200]
  have hcheck : get_version_status (transport 0) loads th = .error (.other s) := by
    unfold get_version_status
    simp [hfetch, hp]
  obtain ⟨m, rfl⟩ : ∃ m, nchecks = m + 1 := ⟨nchecks - 1, by omega⟩
  unfold determine_build_quality_full determine_build_quality
  simp [dbq_loop, hcheck]

/-- Witness for claim C3: a 200 body whose parse fails with a TypeError
(the JSON document is a bare number) yields GENERAL_ERROR. -/
theorem claim_C3_witness :
    determine_build_quality_full (fun _ _ => .resp ⟨200, "x"⟩)
      (fun _ => some (.num 3)) 0 2 = (100, 0) :=
  claim_C3 (fun _ => some (.num 3)) "x" (.other "TypeError")
    (fun _ _ => .resp ⟨200, "x"⟩) 0 2 (by omega) rfl rfl

/-- Claim C4, evaluated at the failing input: when every requests.get call
raises a connection error, the exception is caught inside
make_versions_api_call but the subsequent print on the missing response
raises AttributeError, so only one attempt is made (not 3) and
determine_build_quality returns GENERAL_ERROR (100), not CHECK_ERROR
(101) as the claim states. -/
theorem claim_C4 :
    determine_build_quality_full (fun _ _ => .exn "ConnectionError")
      (fun _ => none) 0 3 = (100, 0) ∧
    (get_version_json_data
      (fun _ => make_versions_api_call (.exn "ConnectionError"))).2 = 1 :=
  ⟨rfl, rfl⟩

/-- Claim C5, evaluated at the failing input: num_checks = 2, the first
check is clean and the second raises a non-CheckBuildException error; the
generic except handler only logs, leaving the status variable at the 0
stored by the first check, so determine_build_quality returns 0 (SUCCESS),
not GENERAL_ERROR (100) as the claim states. -/
theorem claim_C5 :
    determine_build_quality
      (fun i => if i = 0 then .ok 0 else .error (.other "RuntimeError")) 2 =
      (0, 1) := rfl

/-- Claim C10: for every behaviour of the HTTP transport and of json.loads,
every threshold and every number of checks, determine_build_quality returns
normally with one of the six status codes 0, 1, 2, 3, 100, 101. -/
theorem claim_C10 (transport : Nat → Nat → TransportResult)
    (loads : String → Option JValue) (th : Int) (nchecks : Nat) :
    (determine_build_quality_full transport loads th nchecks).1 ∈
      ([0, 1, 2, 3, 100, 101] : List Int) := by
  unfold determine_build_quality_full determine_build_quality
  have := dbq_loop_codes
    (fun c => get_version_status (transport c) loads th)
    (fun j s h => get_version_status_ok_cases h)
    nchecks 0 100 0 (Or.inr rfl)
  simpa using this

/-- Helper: the retry loop makes at least one and at most fuel attempts
when started with positive fuel. -/
theorem retryLoop_count (attempt : Nat → Except PyErr (Option Response)) :
    ∀ (fuel i : Nat), 1 ≤ fuel →
      i + 1 ≤ (retryLoop attempt i fuel).2 ∧
      (retryLoop attempt i fuel).2 ≤ i + fuel := by
  intro fuel
  induction fuel with
  | zero => intro i h; exact absurd h (by omega)
  | succ fuel ih =>
    intro i _
    cases fuel with
    | zero =>
      cases h : attempt i <;> simp [retryLoop, h]
    | succ f =>
      cases h : attempt i with
      | error e => simp [retryLoop, h]
      | ok r =>
        by_cases h2 : is200 r
        · simp [retryLoop, h, h2]
        · simp only [retryLoop, h, h2, Bool.false_eq_true, if_false]
          have := ih (i + 1) (by omega)
          constructor <;> omega

/-- Helper: the attempt count of get_version_json_data is the attempt count
of its retry loop. -/
theorem get_version_json_data_snd (attempt : Nat → Except PyErr (Option Response)) :
    (get_version_json_data attempt).2 = (retryLoop attempt 0 3).2 := by
  unfold get_version_json_data
  rcases h : retryLoop attempt 0 3 with ⟨r, n⟩
  rcases r with e | _ | resp
  · simp
  · simp
  · by_cases h2 : resp.status_code == 200 <;> simp [h2]

/-- Claim C6: the stats fetch makes at most 3 HTTP attempts (and at least
one); it returns the body of the first attempt with status 200; after
exhausting all 3 attempts it fails with a CheckBuildException naming the
final non-200 status code when a response exists, or one indicating no
response when the final attempt produced no response object; a transport
that always returns 503 fails after exactly 3 attempts, and one returning
non-200 twice then 200 returns that third body. -/
theorem claim_C6 :
    (∀ attempt : Nat → Except PyErr (Option Response),
       1 ≤ (get_version_json_data attempt).2 ∧
       (get_version_json_data attempt).2 ≤ 3) ∧
    (∀ (tr : Nat → Option Response) (k : Nat) (resp : Response),
       k < 3 → tr k = some resp → resp.status_code = 200 →
       (∀ j, j < k → is200 (tr j) = false) →
       get_version_json_data (pureAttempts tr) = (.ok resp.text, k + 1)) ∧
    (∀ (tr : Nat → Option Response) (r2 : Response),
       (∀ j, j < 3 → is200 (tr j) = false) → tr 2 = some r2 →
       get_version_json_data (pureAttempts tr) =
         (.error (.checkBuild ("Invalid web response status code: " ++
           toString r2.status_code)), 3)) ∧
    (∀ tr : Nat → Option Response,
       (∀ j, j < 3 → is200 (tr j) = false) → tr 2 = none →
       get_version_json_data (pureAttempts tr) =
         (.error (.checkBuild "Invalid web response resp = None"), 3)) ∧
    get_version_json_data (pureAttempts (fun _ => some ⟨503, "unavailable"⟩)) =
      (.error (.checkBuild "Invalid web response status code: 503"), 3) ∧
    get_version_json_data
      (pureAttempts (fun i => if i < 2 then some ⟨500, "err"⟩ else some ⟨200, "stats"⟩)) =
      (.ok "stats", 3) := by
  refine ⟨?_, ?_, ?_, ?_, by rfl, by rfl⟩
  · intro attempt
    rw [get_version_json_data_snd]
    have := retryLoop_count attempt 3 0 (by omega)
    constructor <;> omega
  · intro tr k resp hk h0 hs hj
    have hsome : is200 (some resp) = true := by simp [is200, hs]
    interval_cases k
    · simp [get_version_json_data, retryLoop, pureAttempts, h0, hsome, hs]
    · have hj0 := hj 0 (by omega)
      simp [get_version_json_data, retryLoop, pureAttempts, hj0, h0, hsome, hs]
    · have hj0 := hj 0 (by omega)
      have hj1 := hj 1 (by omega)
      simp [get_version_json_data, retryLoop, pureAttempts, hj0, hj1, h0, hsome, hs]
  · intro tr r2 hj h2
    have hj0 := hj 0 (by omega)
    have hj1 := hj 1 (by omega)
    have hj2 := hj 2 (by omega)
    have hne : r2.status_code ≠ 200 := by
      rw [h2] at hj2
      simpa [is200] using hj2
    simp [get_version_json_data, retryLoop, pureAttempts, hj0, hj1, h2, hne]
  · intro tr hj h2
    have hj0 := hj 0 (by omega)
    have hj1 := hj 1 (by omega)
    simp [get_version_json_data, retryLoop, pureAttempts, hj0, hj1, h2]

/-- Witness for claim C6: a first attempt answering 200 returns its body
after exactly one attempt. -/
theorem claim_C6_witness :
    get_version_json_data (pureAttempts (fun _ => some ⟨200, "ok"⟩)) =
      (.ok "ok", 1) :=
  claim_C6.2.1 (fun _ => some ⟨200, "ok"⟩) 0 ⟨200, "ok"⟩ (by omega) rfl rfl
    (fun j hj => absurd hj (Nat.not_lt_zero j))

/-- Helper: the three successive one-character replaces performed on
environment amount to one filter dropping every dot, dash and underscore. -/
theorem strip_env_toList (s : String) :
    (strip_env s).toList =
      s.toList.filter (fun c => !(c == '.' || c == '-' || c == '_')) := by
  show (((s.toList.filter fun a => a != '.').filter fun a => a != '-').filter
      fun a => a != '_') = _
  rw [List.filter_filter, List.filter_filter]
  refine List.filter_congr ?_
  intro c _
  cases hc1 : c == '.' <;> cases hc2 : c == '-' <;> cases hc3 : c == '_' <;>
    simp [bne, hc1, hc2, hc3]

set_option maxRecDepth 40000 in
/-- Counterexample to claim C7 as stated: this 201-character environment
string is accepted by validate_input (its stripped form is 195
alphanumeric characters), although the claim requires the original
unstripped string to have length at most 200; the code measures the
length only after stripping. -/
theorem claim_C7_counterexample :
    validate_environment longEnv = true ∧ longEnv.length = 201 :=
  ⟨by decide, by decide⟩

/-- Claim C7 (amended): validation accepts an environment string if and
only if, after stripping all dot, underscore and dash characters, the
remainder is nonempty, alphanumeric, and — in place of the original
string — the stripped remainder has length at most 200; "prod-1.env_a" is
accepted and "prod#1" is rejected. -/
theorem claim_C7 :
    (∀ s : String, validate_environment s = true ↔
       ((strip_env s).toList ≠ [] ∧
        (∀ c ∈ (strip_env s).toList, c.isAlphanum = true) ∧
        (strip_env s).length ≤ 200)) ∧
    (∀ s : String, (strip_env s).toList =
       s.toList.filter (fun c => !(c == '.' || c == '-' || c == '_'))) ∧
    validate_environment "prod-1.env_a" = true ∧
    validate_environment "prod#1" = false := by
  refine ⟨?_, strip_env_toList, by decide, by decide⟩
  intro s
  simp [validate_environment, py_isalnum, Bool.and_eq_true, List.all_eq_true,
    List.isEmpty_iff, and_assoc]

/-- Witness for claim C7: a dotted alphanumeric environment is accepted. -/
theorem claim_C7_witness : validate_environment "abc.def" = true :=
  (claim_C7.1 "abc.def").mpr ⟨by decide, by decide, by decide⟩

/-- Claim C8: validation accepts an access_token if and only if it is
alphanumeric of length exactly 32, and a token failing this check makes
the whole input validation fail (before anything else runs). -/
theorem claim_C8 :
    (∀ s : String, validate_access_token s = true ↔
       (s.toList.all Char.isAlphanum = true ∧ s.length = 32)) ∧
    (∀ (token code_version environment : String) (th nc cs : Int),
       validate_access_token token = false →
       validate_input token code_version environment th nc cs = false) := by
  constructor
  · intro s
    obtain ⟨l⟩ := s
    simp only [validate_access_token, py_isalnum, Bool.and_eq_true,
      Bool.not_eq_eq_eq_not, Bool.not_true, decide_eq_true_eq]
    constructor
    · rintro ⟨⟨-, h⟩, hl⟩
      exact ⟨h, hl⟩
    · rintro ⟨h, hl⟩
      refine ⟨⟨?_, h⟩, hl⟩
      have hne : l ≠ [] := by
        intro hemp
        rw [hemp] at hl
        simp [String.length] at hl
      simpa [List.isEmpty_iff] using hne
  · intro token cv env th nc cs h
    simp [validate_input, h]

/-- Witness for claim C8: a 32-character alphanumeric token is accepted,
and a short token makes input validation fail. -/
theorem claim_C8_witness :
    validate_access_token "a0b1c2d3e4f5a0b1c2d3e4f5a0b1c2d3" = true ∧
    validate_input "short" "v" "prod" 0 1 1 = false :=
  ⟨(claim_C8.1 "a0b1c2d3e4f5a0b1c2d3e4f5a0b1c2d3").mpr ⟨by decide, by decide⟩,
   claim_C8.2 "short" "v" "prod" 0 1 1 (by decide)⟩

/-- Claim C9: each category total is its error count plus its critical
count; severities other than error and critical present in a category
object do not affect the total; structurally well-counted categories give
exactly those four totals; and the worked example (new has error 2,
critical 1, warning 99) yields a new total of 3. -/
theorem claim_C9 :
    (∀ (fields : List (String × JValue)) (e c : Int),
       fields.lookup "error" = some (.num e) →
       fields.lookup "critical" = some (.num c) →
       get_error_and_higher_count (.obj fields) = .ok (e + c)) ∧
    (∀ (w : String) (v : JValue) (fields : List (String × JValue)),
       w ≠ "error" → w ≠ "critical" →
       get_error_and_higher_count (.obj ((w, v) :: fields)) =
         get_error_and_higher_count (.obj fields)) ∧
    (∀ (sn sr sp ss : JValue) (n r p q : Int) (body : String),
       get_error_and_higher_count sn = .ok n →
       get_error_and_higher_count sr = .ok r →
       get_error_and_higher_count sp = .ok p →
       get_error_and_higher_count ss = .ok q →
       calculate_item_totals (fun _ => some (mkVersionsResponse sn sr sp ss)) body =
         .ok ⟨n, r, p, q⟩) ∧
    calculate_item_totals (fun _ => some exampleResponse) "body" =
      .ok ⟨3, 0, 0, 0⟩ := by
  refine ⟨?_, ?_, ?_, by rfl⟩
  · intro fields e c he hc
    simp [get_error_and_higher_count, jGet, he, hc, pyNumVal]
  · intro w v fields hw1 hw2
    have h1 : (("error" : String) == w) = false :=
      beq_eq_false_iff_ne.mpr (Ne.symm hw1)
    have h2 : (("critical" : String) == w) = false :=
      beq_eq_false_iff_ne.mpr (Ne.symm hw2)
    simp [get_error_and_higher_count, jGet, List.lookup, h1, h2]
  · intro sn sr sp ss n r p q body h1 h2 h3 h4
    have e1 : jGet (mkVersionsResponse sn sr sp ss) "result" =
        .ok (.obj [("item_stats", .obj [("new", sn), ("reactivated", sr),
          ("repeated", sp), ("resolved", ss)])]) := rfl
    have e2 : jGet (.obj [("item_stats", .obj [("new", sn), ("reactivated", sr),
        ("repeated", sp), ("resolved", ss)])]) "item_stats" =
        .ok (.obj [("new", sn), ("reactivated", sr), ("repeated", sp),
          ("resolved", ss)]) := rfl
    have e3 : jGet (.obj [("new", sn), ("reactivated", sr), ("repeated", sp),
        ("resolved", ss)]) "new" = .ok sn := rfl
    have e4 : jGet (.obj [("new", sn), ("reactivated", sr), ("repeated", sp),
        ("resolved", ss)]) "reactivated" = .ok sr := rfl
    have e5 : jGet (.obj [("new", sn), ("reactivated", sr), ("repeated", sp),
        ("resolved", ss)]) "repeated" = .ok sp := rfl
    have e6 : jGet (.obj [("new", sn), ("reactivated", sr), ("repeated", sp),
        ("resolved", ss)]) "resolved" = .ok ss := rfl
    simp [calculate_item_totals, e1, e2, e3, e4, e5, e6, h1, h2, h3, h4]

/-- Witness for claim C9: error 2 plus critical 1 totals 3. -/
theorem claim_C9_witness :
    get_error_and_higher_count
      (.obj [("error", .num 2), ("critical", .num 1)]) = .ok 3 :=
  claim_C9.1 [("error", .num 2), ("critical", .num 1)] 2 1 rfl rfl

end BuildQualityCheck
